import Mathlib

/-!
Verification of the class-scheduler backend's recurrence-expansion engine,
conflict detector, exception reconciliation and single-instance detachment.

The definitions below are a shallow embedding of the TypeScript source:
  * `src/utils/schedule-generator.util.ts` (the recurrence expander),
  * `src/controllers/class.controller.ts` (both controller variants of the
    conflict finder, bulk-series exception reconciliation, and the
    single-instance update/detach handler).

Modelling conventions:
  * Instants are natural numbers counting minutes (a strictly monotone image
    of JS `Date.getTime()`; all the verified properties only use ordering
    and minute arithmetic).
  * Calendar days are `CivilDate` records (proleptic Gregorian calendar,
    month 1-12, day 1-31); `toDays` is the usual civil-from-days rank.
  * Mongo ObjectIds are modelled as `Nat`; populated display names are kept
    denormalised on the series document.
  * The source's day-walking `while` loop is modelled with an explicit
    `fuel` step bound; every theorem below either holds for all `fuel` or
    instantiates it with a concrete sufficient value.
  * date-fns `format` output is stood in for by numeric day / minute-of-day
    rendering (`fmtDate` / `fmtTime`); no verified property depends on the
    textual shape of a formatted date.
-/

/-- Gregorian leap-year test (as used by date-fns / JS `Date`). -/
def isLeapYear (y : Nat) : Bool :=
  (y % 4 == 0 && y % 100 != 0) || y % 400 == 0

/-- Number of days in month `m` (1-12) of year `y`.  Out-of-range months
return a junk value that is never reached from valid dates. -/
def daysInMonth (y m : Nat) : Nat :=
  match m with
  | 1 => 31
  | 2 => if isLeapYear y then 29 else 28
  | 3 => 31
  | 4 => 30
  | 5 => 31
  | 6 => 30
  | 7 => 31
  | 8 => 31
  | 9 => 30
  | 10 => 31
  | 11 => 30
  | 12 => 31
  | _ => 30

/-- A civil calendar date (year, month 1-12, day 1-..). -/
structure CivilDate where
  year : Nat
  month : Nat
  day : Nat
deriving BEq, DecidableEq, Repr

/-- Days of year `y` that precede month `m` (sum of the lengths of months
`1..m-1`). -/
def daysBeforeMonth (y m : Nat) : Nat :=
  ((List.range m).map (fun k => if k == 0 then 0 else daysInMonth y k)).sum

/-- Rank of a civil date: days elapsed since 0001-01-01 (proleptic
Gregorian).  Strictly monotone in calendar order for valid dates; this is
the model of JS `Date` ordering and of date-fns `differenceInDays` for
midnight-aligned dates. -/
def toDays (d : CivilDate) : Nat :=
  365 * (d.year - 1)
    + ((d.year - 1) / 4 - (d.year - 1) / 100 + (d.year - 1) / 400)
    + daysBeforeMonth d.year d.month + (d.day - 1)

/-- JS `Date.prototype.getDay`: 0 = Sunday .. 6 = Saturday.  The offset is
calibrated so that 1970-01-01 is a Thursday (4). -/
def dayOfWeek (d : CivilDate) : Nat :=
  (toDays d + 1) % 7

/-- Minutes-since-epoch instant of clock time `h:m` on day `d`.  This is the
model of `new Date(baseDate).setHours(h, m, 0, 0)`; JS hour overflow
(`setHours(25)` rolling into the next day) and plain minute arithmetic
coincide under this encoding. -/
def toMinutes (d : CivilDate) (h m : Nat) : Nat :=
  toDays d * 1440 + h * 60 + m

/-- Calendar successor of a day: the model of date-fns `addDays(d, 1)` on
valid dates. -/
def nextDay (d : CivilDate) : CivilDate :=
  if d.day < daysInMonth d.year d.month then ⟨d.year, d.month, d.day + 1⟩
  else if d.month < 12 then ⟨d.year, d.month + 1, 1⟩
  else ⟨d.year + 1, 1, 1⟩

/-- Calendar order on civil dates (lexicographic year/month/day), the model
of JS `Date` comparison for valid midnight-aligned dates. -/
def dateLE (a b : CivilDate) : Bool :=
  a.year < b.year
    || (a.year == b.year
        && (a.month < b.month || (a.month == b.month && a.day ≤ b.day)))

/-- date-fns `isLastDayOfMonth`. -/
def isLastDayOfMonth (d : CivilDate) : Bool :=
  d.day == daysInMonth d.year d.month

/-- The source's `while (currentDateCursor <= recurrenceEndBoundary)` loop
walking one day at a time, with an explicit step bound `fuel`. -/
def dayWalk : Nat → CivilDate → CivilDate → List CivilDate
  | 0, _, _ => []
  | fuel + 1, cur, stop =>
    if dateLE cur stop then cur :: dayWalk fuel (nextDay cur) stop else []

/-- One `{ startTime24h, endTime24h }` entry of `dailyTimeSlots`.  The
source carries the times as "HH:mm" strings; the embedding carries the
parsed hour/minute numbers (the `NaN`-parse failure branch of
`createValidClassSessionFromDateAndTimes` is unrepresentable here because
the upstream zod schema only admits well-formed "HH:mm" strings). -/
structure TimeSlot where
  startH : Nat
  startM : Nat
  endH : Nat
  endM : Nat
deriving BEq, DecidableEq, Repr

/-- A materialised session occurrence.  `sessionId` models the mongoose
subdocument `_id` (0 = not yet assigned; ids are given at persistence, the
expander always emits 0). -/
structure Session where
  sessionId : Nat
  sessionStartDateTime : Nat
  sessionEndDateTime : Nat
deriving BEq, DecidableEq, Repr

/-- Model of `createValidClassSessionFromDateAndTimes` from
`schedule-generator.util.ts`: combines a base day with a time slot,
rejecting `end <= start` and durations below 30 minutes.  The source throws
`Error` with a descriptive message; the embedding returns `Except String`.
-/
def createValidClassSessionFromDateAndTimes (baseDate : CivilDate)
    (slot : TimeSlot) : Except String Session :=
  let sessionStart := toMinutes baseDate slot.startH slot.startM
  let sessionEnd := toMinutes baseDate slot.endH slot.endM
  if sessionEnd ≤ sessionStart then
    .error "Invalid time range: end time must be after start time"
  else if sessionEnd - sessionStart < 30 then
    .error "Class duration is too short"
  else
    .ok ⟨0, sessionStart, sessionEnd⟩

/-- The per-day emission step shared by all three generation modes: for each
time slot, try to build the session (a validation throw is caught and the
slot skipped with a warning) and keep it only when its start clears the
`now + 30` minutes future buffer (`earliestAllowedStart`). -/
def emitForDay (now : Nat) (slots : List TimeSlot) (d : CivilDate) :
    List Session :=
  slots.filterMap (fun slot =>
    match createValidClassSessionFromDateAndTimes d slot with
    | .ok session =>
      if now + 30 ≤ session.sessionStartDateTime then some session else none
    | .error _ => none)

/-- The supported recurrence kinds (`RecurrenceStrategy` in
`class.model.ts`; `single` is the wire value `"none"`). -/
inductive RecurrenceType where
  | single
  | daily
  | weekly
  | monthly
  | custom
deriving BEq, DecidableEq, Repr

/-- The generator's request payload (the fields of `req.body` read by
`generateAllClassSessions`, already shaped by the zod schema). -/
structure GenPayload where
  seriesStartDate : Option CivilDate
  seriesEndDate : Option CivilDate
  recurrenceType : RecurrenceType
  dailyTimeSlots : List TimeSlot
  selectedWeekdays : List Nat
  selectedMonthDays : List Nat
  repeatEveryXWeeksOrDays : Nat
  manuallyChosenDates : List CivilDate
deriving Repr

/-- Day filter of the CUSTOM pattern mode: week-interval match (the source
forces the interval to at least 1 with `Math.max(1, x || 1)`) and optional
weekday filter (an empty `selectedWeekdays` matches every weekday). -/
def customDayMatch (p : GenPayload) (st cur : CivilDate) : Bool :=
  let weeksSincePatternStart : Int :=
    Int.tdiv ((toDays cur : Int) - (toDays st : Int)) 7
  let intervalWeeks : Nat := max 1 p.repeatEveryXWeeksOrDays
  weeksSincePatternStart.tmod intervalWeeks == 0
    && (p.selectedWeekdays.isEmpty
        || p.selectedWeekdays.contains (dayOfWeek cur))

/-- Model of `shouldIncludeThisDay` of the standard walk (kinds none/daily/weekly/
monthly).  A zero interval is guarded because in JS `x % 0` is `NaN` and
`NaN === 0` is false, so a zero interval matches no day. -/
def standardDayMatch (p : GenPayload) (st cur : CivilDate) : Bool :=
  match p.recurrenceType with
  | .daily =>
    let daysSinceStart : Int := (toDays cur : Int) - (toDays st : Int)
    p.repeatEveryXWeeksOrDays != 0
      && daysSinceStart.tmod p.repeatEveryXWeeksOrDays == 0
  | .weekly =>
    let weeksSinceStart : Int :=
      Int.tdiv ((toDays cur : Int) - (toDays st : Int)) 7
    p.repeatEveryXWeeksOrDays != 0
      && weeksSinceStart.tmod p.repeatEveryXWeeksOrDays == 0
      && p.selectedWeekdays.contains (dayOfWeek cur)
  | .monthly =>
    p.selectedMonthDays.contains cur.day
      || (isLastDayOfMonth cur
          && p.selectedMonthDays.any
              (fun d => d > daysInMonth cur.year cur.month))
  | .single => true
  | .custom => false

/-- The days for which sessions are emitted.  CUSTOM with manual dates uses
exactly the listed dates; CUSTOM pattern mode and the standard kinds walk
from `seriesStartDate` to the boundary (a missing `seriesEndDate` leaves the
boundary at the start day); the `"none"` kind breaks out of the loop after
the first day. -/
def includedDays (p : GenPayload) (fuel : Nat) : List CivilDate :=
  match p.recurrenceType with
  | .custom =>
    if !p.manuallyChosenDates.isEmpty then p.manuallyChosenDates
    else
      match p.seriesStartDate, p.seriesEndDate with
      | some st, some en => (dayWalk fuel st en).filter (customDayMatch p st)
      | _, _ => []
  | _ =>
    match p.seriesStartDate with
    | none => []
    | some st =>
      let stop := p.seriesEndDate.getD st
      if p.recurrenceType == .single then
        if dateLE st stop then [st] else []
      else (dayWalk fuel st stop).filter (standardDayMatch p st)

/-- The sessions surviving per-slot validation and the future buffer. -/
def survivingSessions (p : GenPayload) (now fuel : Nat) : List Session :=
  (includedDays p fuel).flatMap (emitForDay now p.dailyTimeSlots)

/-- Failure kinds of `generateAllClassSessions` (the thrown `Error`s of the
source, by kind). -/
inductive GenError where
  | noTimeSlots
  | missingBoundary
  | invalidRange
  | invalidStartDate
  | noFutureSessions
deriving BEq, DecidableEq, Repr

/-- The validations the source performs before any day is walked:
`dailyTimeSlots` must be non-empty; CUSTOM pattern mode (no manual dates)
requires both boundary dates and start ≤ end; the standard kinds require a
parseable `seriesStartDate`. -/
def earlyValidate (p : GenPayload) : Option GenError :=
  if p.dailyTimeSlots.isEmpty then some .noTimeSlots
  else
    match p.recurrenceType with
    | .custom =>
      if !p.manuallyChosenDates.isEmpty then none
      else
        match p.seriesStartDate, p.seriesEndDate with
        | some st, some en =>
          if !dateLE st en then some .invalidRange else none
        | _, _ => some .missingBoundary
    | _ =>
      match p.seriesStartDate with
      | none => some .invalidStartDate
      | some _ => none

/-- Model of `generateAllClassSessions` from `schedule-generator.util.ts`: validate,
generate with per-occurrence slot validation and future-buffer filtering,
and fail with `noFutureSessions` when nothing survives (both the custom
branch and the final safety net of the standard branch perform this
emptiness check before returning). -/
def generateAllClassSessions (p : GenPayload) (now fuel : Nat) :
    Except GenError (List Session) :=
  match earlyValidate p with
  | some e => .error e
  | none =>
    let sessions := survivingSessions p now fuel
    if sessions.isEmpty then .error .noFutureSessions else .ok sessions

/-- The half-open interval overlap test used by every conflict query and
re-scan in `class.controller.ts`:
`a.sessionStartDateTime < b.sessionEndDateTime AND
 a.sessionEndDateTime > b.sessionStartDateTime`. -/
def overlaps (a b : Session) : Bool :=
  decide (a.sessionStartDateTime < b.sessionEndDateTime)
    && decide (a.sessionEndDateTime > b.sessionStartDateTime)

/-- Status of a stored exception record. -/
inductive ExceptionStatus where
  | modified
  | cancelled
deriving BEq, DecidableEq, Repr

/-- An `exceptions` array entry of a series document (`IInstanceException`
in `class.model.ts`).  `newStart`/`newEnd` are present only for `modified`
entries; the source non-null-asserts them when substituting. -/
structure ExceptionRecord where
  originalStart : Nat
  status : ExceptionStatus
  reason : String
  newStart : Option Nat
  newEnd : Option Nat
deriving BEq, DecidableEq, Repr

/-- A persisted `ClassSchedule` document.  The recurrence-rule fields
(`seriesStartDate`, `dailyTimeSlots`, ...) are stored flat on the document
in the source but are not read by any of the verified controller paths, so
they are omitted here; `instructorName`/`roomName` model the display names
obtained by `populate`. -/
structure SeriesDoc where
  docId : Nat
  classTitle : String
  assignedInstructor : Nat
  assignedRoom : Nat
  instructorName : String
  roomName : String
  recurrenceType : RecurrenceType
  preGeneratedClassSessions : List Session
  exceptions : List ExceptionRecord
deriving BEq, DecidableEq, Repr

/-- The `{field, message}` record a conflict finder returns. -/
structure ConflictDetail where
  field : String
  message : String
deriving BEq, DecidableEq, Repr

/-- Stand-in for the date part of date-fns `format` (day index). -/
def fmtDate (t : Nat) : String :=
  toString (t / 1440)

/-- Stand-in for the time part of date-fns `format` (minute of day). -/
def fmtTime (t : Nat) : String :=
  toString (t % 1440)

/-- The mongo query of the first (joint) `findDetailedSchedulingConflict`
variant: the document uses the requested room OR the requested instructor,
is not the ignored series, and owns at least one session overlapping at
least one requested session (`$elemMatch` with a per-candidate `$or`). -/
def docMatchesConflictQuery (requested : List Session)
    (targetRoomId targetInstructorId : Nat) (ignore : Option Nat)
    (doc : SeriesDoc) : Bool :=
  (doc.assignedRoom == targetRoomId
      || doc.assignedInstructor == targetInstructorId)
    && (match ignore with
        | some ig => !(doc.docId == ig)
        | none => true)
    && doc.preGeneratedClassSessions.any (fun existing =>
        requested.any (fun n => overlaps existing n))

/-- First controller variant of `findDetailedSchedulingConflict`
(single joint query; `class.controller.ts` before the second copy of the
file): find one conflicting document, re-scan its sessions for the exact
overlapping one, and attribute the conflict to the instructor exactly when
the winning document's instructor is the requested instructor.  `findOne`
is modelled by `List.find?` over the store. -/
def findDetailedSchedulingConflict (store : List SeriesDoc)
    (requested : List Session) (targetRoomId targetInstructorId : Nat)
    (ignoreCurrentClassId : Option Nat) : Option ConflictDetail :=
  match store.find?
      (docMatchesConflictQuery requested targetRoomId targetInstructorId
        ignoreCurrentClassId) with
  | none => none
  | some doc =>
    let exactProblematicSession :=
      (doc.preGeneratedClassSessions.find? (fun existing =>
          requested.any (fun n => overlaps n existing))).getD ⟨0, 0, 0⟩
    let fullHumanReadableTimeRange :=
      fmtDate exactProblematicSession.sessionStartDateTime ++ " at "
        ++ fmtTime exactProblematicSession.sessionStartDateTime ++ " to "
        ++ fmtTime exactProblematicSession.sessionEndDateTime
    let isInstructorTheProblem := doc.assignedInstructor == targetInstructorId
    some
      { field :=
          if isInstructorTheProblem then "assignedInstructor"
          else "assignedRoom"
        message :=
          if isInstructorTheProblem then
            "Instructor " ++ doc.instructorName ++ " is already teaching \""
              ++ doc.classTitle ++ "\" on " ++ fullHumanReadableTimeRange
              ++ "."
          else
            "Room " ++ doc.roomName ++ " is already reserved for \""
              ++ doc.classTitle ++ "\" on " ++ fullHumanReadableTimeRange
              ++ "." }

/-- The `baseQuery(field, id)` of the second (dual-query) controller
variant: a single field equals the target id, the ignored series is
excluded, and some stored session overlaps some requested session. -/
def baseQueryMatches (requested : List Session) (ignore : Option Nat)
    (fieldOf : SeriesDoc → Nat) (id : Nat) (doc : SeriesDoc) : Bool :=
  fieldOf doc == id
    && (match ignore with
        | some ig => !(doc.docId == ig)
        | none => true)
    && doc.preGeneratedClassSessions.any (fun existing =>
        requested.any (fun n => overlaps existing n))

/-- Message construction shared by the three branches of the dual-query
variant: locate the exact overlapping session of the winning document and
render the `"Conflict Detected: ..."` text. -/
def dualConflictMessage (src : SeriesDoc) (requested : List Session)
    (entityName : String) : String :=
  let overlappingSession :=
    (src.preGeneratedClassSessions.find? (fun existing =>
        requested.any (fun proposed => overlaps proposed existing))).getD
      ⟨0, 0, 0⟩
  "Conflict Detected: " ++ entityName ++ " occupied on "
    ++ fmtDate overlappingSession.sessionStartDateTime ++ " from "
    ++ fmtTime overlappingSession.sessionStartDateTime ++ " to "
    ++ fmtTime overlappingSession.sessionEndDateTime ++ "."

/-- Second controller variant of `findDetailedSchedulingConflict` (the
dual-query form used by `createClassSeries`, `updateEntireClassSeries` and
`updateSingleInstance` of the second controller copy): instructor and room
are queried independently; when both queries hit, the message names both
entities (`conflictSource = instructorConflict || roomConflict`, so the
instructor document supplies the overlapping session and the field). -/
def findDetailedSchedulingConflictDual (store : List SeriesDoc)
    (requested : List Session) (targetRoomId targetInstructorId : Nat)
    (ignoreSeriesId : Option Nat) : Option ConflictDetail :=
  let instructorConflict :=
    store.find?
      (baseQueryMatches requested ignoreSeriesId
        (fun d => d.assignedInstructor) targetInstructorId)
  let roomConflict :=
    store.find?
      (baseQueryMatches requested ignoreSeriesId (fun d => d.assignedRoom)
        targetRoomId)
  match instructorConflict, roomConflict with
  | none, none => none
  | some di, some dr =>
    some
      { field := "assignedInstructor"
        message :=
          dualConflictMessage di requested
            ("Instructor \"" ++ di.instructorName ++ "\" AND Room \""
              ++ dr.roomName ++ "\" are both") }
  | some di, none =>
    some
      { field := "assignedInstructor"
        message :=
          dualConflictMessage di requested
            ("Instructor \"" ++ di.instructorName ++ "\" is") }
  | none, some dr =>
    some
      { field := "assignedRoom"
        message :=
          dualConflictMessage dr requested
            ("Room \"" ++ dr.roomName ++ "\" is") }

/-- The MODIFIED-substitution pass of `updateEntireClassSeries`: if some
exception with status `modified` is anchored at the freshly generated
session's start, replace the session's start/end with the exception's
`newStart`/`newEnd` (the source non-null-asserts them; absence is modelled
by the unreachable default 0). -/
def applyModifiedException (excs : List ExceptionRecord) (sess : Session) :
    Session :=
  match excs.find? (fun ex =>
      ex.originalStart == sess.sessionStartDateTime
        && ex.status == ExceptionStatus.modified) with
  | some manualEdit =>
    { sess with
        sessionStartDateTime := manualEdit.newStart.getD 0
        sessionEndDateTime := manualEdit.newEnd.getD 0 }
  | none => sess

/-- Does some CANCELLED exception anchor at start instant `t`? -/
def cancelledAt (excs : List ExceptionRecord) (t : Nat) : Bool :=
  excs.any (fun ex =>
    ex.originalStart == t && ex.status == ExceptionStatus.cancelled)

/-- Exception reconciliation of `updateEntireClassSeries` (step 2,
"PROTECTION"): map the MODIFIED substitutions over the freshly generated
sessions, then drop every session whose (post-substitution) start matches a
CANCELLED anchor. -/
def reconcileExceptions (excs : List ExceptionRecord)
    (newSessions : List Session) : List Session :=
  (newSessions.map (applyModifiedException excs)).filter (fun sess =>
    !cancelledAt excs sess.sessionStartDateTime)

/-- Body fields of a single-instance update/detach request
(`detachInstanceSchema`); absent optional fields keep the parent's values.
-/
structure UpdateBody where
  newStart : Option Nat
  newEnd : Option Nat
  classTitle : Option String
  assignedInstructor : Option Nat
  assignedRoom : Option Nat
  reason : String
deriving Repr

/-- Outcome of `updateSingleInstance`: either the standalone in-place
mutation (series already of kind `"none"`) or a detachment producing the
new SINGLE series plus the mutated parent. -/
inductive UpdateOutcome where
  | standalone (series : SeriesDoc)
  | detached (newClass : SeriesDoc) (parent : SeriesDoc)
deriving Repr

/-- Failure kinds of `updateSingleInstance`. `updateError` is the generic
catch-all (e.g. mutating session 0 of an empty session array throws a
`TypeError` in the source, answered as a generic update error). -/
inductive UpdateError where
  | notFound
  | conflict (c : ConflictDetail)
  | updateError
deriving Repr

/-- Model of `updateSingleInstance` from the second controller copy.  A series
already of kind `"none"` is mutated in place (title/instructor/room and the
first stored session's start/end) and saved with **no conflict check**.
Otherwise the target session is detached: conflict-check the single new
interval excluding the parent, create a standalone SINGLE series holding
exactly that interval, append a CANCELLED exception anchored at the
original session start, and pull the session from the parent's array. -/
def updateSingleInstance (store : List SeriesDoc) (series : SeriesDoc)
    (sessionId : Nat) (body : UpdateBody) :
    Except UpdateError UpdateOutcome :=
  if series.recurrenceType == RecurrenceType.single then
    let s1 :=
      { series with
          classTitle := body.classTitle.getD series.classTitle
          assignedInstructor :=
            body.assignedInstructor.getD series.assignedInstructor
          assignedRoom := body.assignedRoom.getD series.assignedRoom }
    match s1.preGeneratedClassSessions with
    | [] =>
      if body.newStart.isSome || body.newEnd.isSome then .error .updateError
      else .ok (.standalone s1)
    | h :: t =>
      .ok (.standalone
        { s1 with
            preGeneratedClassSessions :=
              { h with
                  sessionStartDateTime :=
                    body.newStart.getD h.sessionStartDateTime
                  sessionEndDateTime :=
                    body.newEnd.getD h.sessionEndDateTime } :: t })
  else
    match series.preGeneratedClassSessions.find?
        (fun s => s.sessionId == sessionId) with
    | none => .error .notFound
    | some session =>
      let finalStart := body.newStart.getD session.sessionStartDateTime
      let finalEnd := body.newEnd.getD session.sessionEndDateTime
      match findDetailedSchedulingConflictDual store
          [⟨0, finalStart, finalEnd⟩]
          (body.assignedRoom.getD series.assignedRoom)
          (body.assignedInstructor.getD series.assignedInstructor)
          (some series.docId) with
      | some c => .error (.conflict c)
      | none =>
        let newStandaloneClass : SeriesDoc :=
          { docId := 0
            classTitle := body.classTitle.getD series.classTitle
            assignedInstructor :=
              body.assignedInstructor.getD series.assignedInstructor
            assignedRoom := body.assignedRoom.getD series.assignedRoom
            instructorName := series.instructorName
            roomName := series.roomName
            recurrenceType := RecurrenceType.single
            preGeneratedClassSessions := [⟨0, finalStart, finalEnd⟩]
            exceptions := [] }
        let parent :=
          { series with
              exceptions :=
                series.exceptions
                  ++ [⟨session.sessionStartDateTime,
                        ExceptionStatus.cancelled, body.reason, none, none⟩]
              preGeneratedClassSessions :=
                series.preGeneratedClassSessions.filter
                  (fun s => !(s.sessionId == sessionId)) }
        .ok (.detached newStandaloneClass parent)

/-! ## Helper lemmas -/

/-- Membership in the per-day emission: a session is emitted for a day iff
some slot validates to it and its start clears the future buffer. -/
theorem mem_emitForDay {now : Nat} {slots : List TimeSlot} {d : CivilDate}
    {s : Session} :
    s ∈ emitForDay now slots d ↔
      ∃ slot ∈ slots,
        createValidClassSessionFromDateAndTimes d slot = .ok s ∧
          now + 30 ≤ s.sessionStartDateTime := by
  unfold emitForDay
  rw [List.mem_filterMap]
  constructor
  · rintro ⟨slot, hmem, hf⟩
    refine ⟨slot, hmem, ?_⟩
    revert hf
    cases hc : createValidClassSessionFromDateAndTimes d slot with
    | error e => intro hf; exact absurd hf (by simp)
    | ok s' =>
      simp only
      split
      · rename_i hb
        intro hf
        cases hf
        exact ⟨rfl, hb⟩
      · intro hf; exact absurd hf (by simp)
  · rintro ⟨slot, hmem, hok, hb⟩
    refine ⟨slot, hmem, ?_⟩
    rw [hok]
    simp [hb]

/-- Membership in the surviving-session list: a session survives iff it is
emitted (by some included day and some slot) and clears the future buffer.
-/
theorem mem_survivingSessions {p : GenPayload} {now fuel : Nat} {s : Session} :
    s ∈ survivingSessions p now fuel ↔
      ∃ d ∈ includedDays p fuel, ∃ slot ∈ p.dailyTimeSlots,
        createValidClassSessionFromDateAndTimes d slot = .ok s ∧
          now + 30 ≤ s.sessionStartDateTime := by
  unfold survivingSessions
  rw [List.mem_flatMap]
  constructor
  · rintro ⟨d, hd, hs⟩
    exact ⟨d, hd, mem_emitForDay.mp hs⟩
  · rintro ⟨d, hd, hrest⟩
    exact ⟨d, hd, mem_emitForDay.mpr hrest⟩

/-! ## C4: overlap predicate -/

/-- C4: the conflict detector's overlap predicate holds for intervals `a`
(existing) and `b` (candidate) iff `a.start < b.end` and `a.end > b.start`;
the predicate is symmetric; and back-to-back intervals with
`a.end = b.start` never overlap. -/
theorem overlap_predicate_halfopen_symmetric (a b : Session) :
    (overlaps a b = true ↔
      a.sessionStartDateTime < b.sessionEndDateTime ∧
        a.sessionEndDateTime > b.sessionStartDateTime)
    ∧ overlaps a b = overlaps b a
    ∧ (a.sessionEndDateTime = b.sessionStartDateTime →
        overlaps a b = false) := by
  refine ⟨?_, ?_, ?_⟩
  · simp [overlaps]
  · show
      (decide (a.sessionStartDateTime < b.sessionEndDateTime)
          && decide (b.sessionStartDateTime < a.sessionEndDateTime)) =
        (decide (b.sessionStartDateTime < a.sessionEndDateTime)
          && decide (a.sessionStartDateTime < b.sessionEndDateTime))
    exact Bool.and_comm _ _
  · intro h
    simp [overlaps, h]

/-- Witness for C4 at concrete back-to-back intervals: a session ending at
minute 10 does not overlap one starting at minute 10. -/
theorem overlap_predicate_halfopen_symmetric_witness :
    overlaps ⟨1, 0, 10⟩ ⟨2, 10, 20⟩ = false :=
  (overlap_predicate_halfopen_symmetric ⟨1, 0, 10⟩ ⟨2, 10, 20⟩).2.2 rfl

/-! ## C1: exception reconciliation order -/

/-- Concrete MODIFIED exception anchored at minute 100, moving the session
to 200-260. -/
def c1ModifiedException : ExceptionRecord :=
  ⟨100, .modified, "moved", some 200, some 260⟩

/-- Concrete CANCELLED exception anchored at the same minute 100. -/
def c1CancelledException : ExceptionRecord :=
  ⟨100, .cancelled, "cancelled by user", none, none⟩

/-- A freshly generated session whose original start is the shared anchor.
-/
def c1FreshSession : Session := ⟨0, 100, 160⟩

/-- C1 counterexample: a freshly generated session whose original start
matches the anchor of both a MODIFIED exception (which moves the start) and
a CANCELLED exception is NOT absent from the reconciled sequence — the
CANCELLED filter runs on the post-substitution start, so the moved session
survives. -/
theorem reconcile_cancelled_anchor_resurrected :
    c1FreshSession.sessionStartDateTime = c1ModifiedException.originalStart
    ∧ c1ModifiedException.status = ExceptionStatus.modified
    ∧ c1FreshSession.sessionStartDateTime = c1CancelledException.originalStart
    ∧ c1CancelledException.status = ExceptionStatus.cancelled
    ∧ reconcileExceptions [c1ModifiedException, c1CancelledException]
        [c1FreshSession] = [⟨0, 200, 260⟩] := by
  refine ⟨rfl, rfl, rfl, rfl, ?_⟩
  decide

/-- C1 (amended): MODIFIED substitutions are applied first and CANCELLED
filtering second, but the CANCELLED filter tests the POST-substitution
start: a freshly generated session (after its MODIFIED substitution, if
any) is present in the reconciled sequence iff no CANCELLED exception
anchors at its substituted start.  In particular a cancelled anchor drops
the session when the MODIFIED exception leaves the start unchanged, while a
MODIFIED exception that moves the start off every cancelled anchor
resurrects the session. -/
theorem reconcile_cancelled_tests_substituted_start
    (excs : List ExceptionRecord) (sessions : List Session) (s : Session)
    (h : s ∈ sessions) :
    applyModifiedException excs s ∈ reconcileExceptions excs sessions ↔
      cancelledAt excs
        (applyModifiedException excs s).sessionStartDateTime = false := by
  unfold reconcileExceptions
  constructor
  · intro hm
    have hp := (List.mem_filter.mp hm).2
    simpa using hp
  · intro hc
    refine List.mem_filter.mpr ⟨List.mem_map_of_mem _ h, ?_⟩
    simp [hc]

/-- Witness for C1 (amended) at a concrete input: with only the cancelled
exception present (no matching MODIFIED exception), the session maps to
itself, its start 100 matches the cancelled anchor, and the iff shows it
absent. -/
theorem reconcile_cancelled_tests_substituted_start_witness :
    applyModifiedException [c1CancelledException] c1FreshSession ∈
        reconcileExceptions [c1CancelledException] [c1FreshSession] ↔
      cancelledAt [c1CancelledException]
        (applyModifiedException [c1CancelledException]
            c1FreshSession).sessionStartDateTime = false :=
  reconcile_cancelled_tests_substituted_start
    [c1CancelledException] [c1FreshSession] c1FreshSession (by simp)

/-! ## C5: empty expansion is a failure -/

/-- C5: for every payload, the expander never succeeds with an empty
sequence; and whenever the pre-generation validations pass but no session
survives generation and the future buffer, the result is the
`noFutureSessions` failure. -/
theorem empty_expansion_is_noFutureSessions :
    (∀ (p : GenPayload) (now fuel : Nat) (l : List Session),
        generateAllClassSessions p now fuel = .ok l → l ≠ [])
    ∧ (∀ (p : GenPayload) (now fuel : Nat),
        earlyValidate p = none → survivingSessions p now fuel = [] →
          generateAllClassSessions p now fuel =
            .error .noFutureSessions) := by
  constructor
  · intro p now fuel l h
    unfold generateAllClassSessions at h
    split at h
    · exact absurd h (by simp)
    · by_cases he : (survivingSessions p now fuel).isEmpty
      · rw [if_pos he] at h
        exact absurd h (by simp)
      · rw [if_neg he] at h
        cases h
        simpa using he
  · intro p now fuel hv hs
    unfold generateAllClassSessions
    rw [hv]
    simp [hs]

/-- Daily payload whose end date precedes its start date: the walk is empty
and nothing survives. -/
def c5EmptyWalkPayload : GenPayload :=
  { seriesStartDate := some ⟨2099, 1, 2⟩
    seriesEndDate := some ⟨2099, 1, 1⟩
    recurrenceType := .daily
    dailyTimeSlots := [⟨9, 0, 10, 0⟩]
    selectedWeekdays := []
    selectedMonthDays := []
    repeatEveryXWeeksOrDays := 1
    manuallyChosenDates := [] }

/-- Witness for C5: the concrete empty-walk payload passes validation,
survives nothing, and the expander answers `noFutureSessions`. -/
theorem empty_expansion_is_noFutureSessions_witness :
    earlyValidate c5EmptyWalkPayload = none
    ∧ survivingSessions c5EmptyWalkPayload 0 3 = []
    ∧ generateAllClassSessions c5EmptyWalkPayload 0 3 =
        .error .noFutureSessions :=
  ⟨by decide, by decide,
    empty_expansion_is_noFutureSessions.2 c5EmptyWalkPayload 0 3
      (by decide) (by decide)⟩

/-! ## C2: time-slot validation -/

/-- Payload (kind `"none"`, far-future start) with one invalid 29-minute
slot and one valid 60-minute slot. -/
def c2MixedSlotsPayload : GenPayload :=
  { seriesStartDate := some ⟨2099, 1, 1⟩
    seriesEndDate := none
    recurrenceType := .single
    dailyTimeSlots := [⟨10, 0, 10, 29⟩, ⟨9, 0, 10, 0⟩]
    selectedWeekdays := []
    selectedMonthDays := []
    repeatEveryXWeeksOrDays := 1
    manuallyChosenDates := [] }

/-- Payload identical to `c2MixedSlotsPayload` but carrying only the
invalid 29-minute slot. -/
def c2OnlyShortSlotPayload : GenPayload :=
  { seriesStartDate := some ⟨2099, 1, 1⟩
    seriesEndDate := none
    recurrenceType := .single
    dailyTimeSlots := [⟨10, 0, 10, 29⟩]
    selectedWeekdays := []
    selectedMonthDays := []
    repeatEveryXWeeksOrDays := 1
    manuallyChosenDates := [] }

/-- C2 counterexample: a request containing a time slot of duration 29
minutes (< 30) does NOT fail with an invalid-time-slot failure — the
offending slot is skipped per-occurrence and the request succeeds on the
remaining valid slot. -/
theorem invalid_slot_does_not_fail_whole_request :
    (∃ slot ∈ c2MixedSlotsPayload.dailyTimeSlots,
        toMinutes ⟨2099, 1, 1⟩ slot.endH slot.endM
            - toMinutes ⟨2099, 1, 1⟩ slot.startH slot.startM < 30)
    ∧ generateAllClassSessions c2MixedSlotsPayload 0 1 =
        .ok [⟨0, 1103442300, 1103442360⟩] := by
  constructor
  · decide
  · rfl

/-- C2 (amended): slot validation happens per generated occurrence inside
expansion, not up-front for the whole request: a slot builds a session iff
its end is strictly after its start and its duration is at least 30 minutes
(so an exactly-30-minute slot is accepted and a 29-minute slot rejected);
an invalid slot only loses its own occurrences while the rest of the
request proceeds, and a request whose slots are all invalid fails with
`noFutureSessions`, not with an invalid-time-slot failure. -/
theorem slot_validation_is_per_occurrence :
    (∀ (d : CivilDate) (slot : TimeSlot),
        (∃ s, createValidClassSessionFromDateAndTimes d slot = .ok s) ↔
          toMinutes d slot.startH slot.startM
              < toMinutes d slot.endH slot.endM
            ∧ 30 ≤ toMinutes d slot.endH slot.endM
                - toMinutes d slot.startH slot.startM)
    ∧ createValidClassSessionFromDateAndTimes ⟨2099, 1, 1⟩ ⟨9, 0, 9, 30⟩ =
        .ok ⟨0, 1103442300, 1103442330⟩
    ∧ createValidClassSessionFromDateAndTimes ⟨2099, 1, 1⟩ ⟨9, 0, 9, 29⟩ =
        .error "Class duration is too short"
    ∧ generateAllClassSessions c2MixedSlotsPayload 0 1 =
        .ok [⟨0, 1103442300, 1103442360⟩]
    ∧ generateAllClassSessions c2OnlyShortSlotPayload 0 1 =
        .error .noFutureSessions := by
  refine ⟨?_, by rfl, by rfl, by rfl, by rfl⟩
  intro d slot
  unfold createValidClassSessionFromDateAndTimes
  dsimp only
  split
  · rename_i h1
    constructor
    · rintro ⟨s, hs⟩; exact absurd hs (by simp)
    · intro h; omega
  · split
    · rename_i h1 h2
      constructor
      · rintro ⟨s, hs⟩; exact absurd hs (by simp)
      · intro h; omega
    · rename_i h1 h2
      constructor
      · intro _; omega
      · intro _; exact ⟨_, rfl⟩

/-! ## C3: MONTHLY inclusion rule -/

/-- C3: a day is included by a MONTHLY rule iff it lies on the bounded walk
and either its day-of-month is in `selectedMonthDays`, or it is the last
calendar day of its month and some configured value exceeds that month's
actual last-day number; in particular with `selectedMonthDays = [31]` a
February day (valid for its year) matches exactly when it is Feb 28 in a
non-leap year or Feb 29 in a leap year. -/
theorem monthly_inclusion_rule :
    (∀ (p : GenPayload) (st : CivilDate) (fuel : Nat) (d : CivilDate),
        p.recurrenceType = .monthly → p.seriesStartDate = some st →
        (d ∈ includedDays p fuel ↔
          d ∈ dayWalk fuel st (p.seriesEndDate.getD st) ∧
            (d.day ∈ p.selectedMonthDays ∨
              (d.day = daysInMonth d.year d.month ∧
                ∃ v ∈ p.selectedMonthDays,
                  daysInMonth d.year d.month < v))))
    ∧ (∀ (p : GenPayload) (st : CivilDate) (y d : Nat),
        p.recurrenceType = .monthly → p.selectedMonthDays = [31] →
        1 ≤ d → d ≤ daysInMonth y 2 →
        (standardDayMatch p st ⟨y, 2, d⟩ = true ↔
          d = daysInMonth y 2)) := by
  constructor
  · intro p st fuel d hType hStart
    unfold includedDays
    rw [hType, hStart]
    dsimp only
    rw [if_neg (by decide)]
    rw [List.mem_filter]
    unfold standardDayMatch
    rw [hType]
    simp [isLastDayOfMonth]
  · intro p st y d hType hDays h1 h2
    have hdim : daysInMonth y 2 = 28 ∨ daysInMonth y 2 = 29 := by
      unfold daysInMonth
      rcases Bool.eq_false_or_eq_true (isLeapYear y) with hl | hl <;> simp [hl]
    unfold standardDayMatch
    rw [hType, hDays]
    simp [isLastDayOfMonth]
    omega

/-- Concrete MONTHLY payload with `selectedMonthDays = [31]` spanning
January to early March 2025 (2025 is not a leap year). -/
def c3MonthlyPayload : GenPayload :=
  { seriesStartDate := some ⟨2025, 1, 1⟩
    seriesEndDate := some ⟨2025, 3, 5⟩
    recurrenceType := .monthly
    dailyTimeSlots := [⟨9, 0, 10, 0⟩]
    selectedWeekdays := []
    selectedMonthDays := [31]
    repeatEveryXWeeksOrDays := 1
    manuallyChosenDates := [] }

/-- Witness for C3 at Feb 28, 2025: the walk-level inclusion iff and the
February characterisation, both at concrete inputs. -/
theorem monthly_inclusion_rule_witness :
    ((⟨2025, 2, 28⟩ : CivilDate) ∈ includedDays c3MonthlyPayload 70 ↔
      (⟨2025, 2, 28⟩ : CivilDate) ∈
          dayWalk 70 ⟨2025, 1, 1⟩
            (c3MonthlyPayload.seriesEndDate.getD ⟨2025, 1, 1⟩) ∧
        ((28 : Nat) ∈ c3MonthlyPayload.selectedMonthDays ∨
          (28 = daysInMonth 2025 2 ∧
            ∃ v ∈ c3MonthlyPayload.selectedMonthDays, daysInMonth 2025 2 < v)))
    ∧ (standardDayMatch c3MonthlyPayload ⟨2025, 1, 1⟩ ⟨2025, 2, 28⟩ = true ↔
        28 = daysInMonth 2025 2) :=
  ⟨monthly_inclusion_rule.1 c3MonthlyPayload ⟨2025, 1, 1⟩ 70 ⟨2025, 2, 28⟩
      rfl rfl,
    monthly_inclusion_rule.2 c3MonthlyPayload ⟨2025, 1, 1⟩ 2025 28 rfl rfl
      (by decide) (by decide)⟩

/-! ## C6: future buffer -/

/-- C6: in every successful expansion, a generated occurrence is kept iff
its start instant is at least `now + 30` minutes; occurrences failing the
buffer are silently dropped (the result is still a success built from the
remaining occurrences, as the witness below shows on a request containing a
dropped occurrence). -/
theorem future_buffer_keeps_iff
    (p : GenPayload) (now fuel : Nat) (l : List Session) (s : Session)
    (h : generateAllClassSessions p now fuel = .ok l) :
    s ∈ l ↔
      (∃ d ∈ includedDays p fuel, ∃ slot ∈ p.dailyTimeSlots,
          createValidClassSessionFromDateAndTimes d slot = .ok s)
        ∧ now + 30 ≤ s.sessionStartDateTime := by
  have hl : l = survivingSessions p now fuel := by
    unfold generateAllClassSessions at h
    split at h
    · exact absurd h (by simp)
    · by_cases he : (survivingSessions p now fuel).isEmpty
      · rw [if_pos he] at h
        exact absurd h (by simp)
      · rw [if_neg he] at h
        cases h
        rfl
  subst hl
  rw [mem_survivingSessions]
  constructor
  · rintro ⟨d, hd, slot, hs, hok, hb⟩
    exact ⟨⟨d, hd, slot, hs, hok⟩, hb⟩
  · rintro ⟨⟨d, hd, slot, hs, hok⟩, hb⟩
    exact ⟨d, hd, slot, hs, hok, hb⟩

/-- Manual-dates payload used for the C6 witness: two dates; with
`now := toMinutes 2099-01-01 9:00 - 29`, the first date's occurrence starts
29 minutes after `now` (dropped) while the second date's occurrence starts
1469 minutes after `now` (kept). -/
def c6TwoDatePayload : GenPayload :=
  { seriesStartDate := none
    seriesEndDate := none
    recurrenceType := .custom
    dailyTimeSlots := [⟨9, 0, 10, 0⟩]
    selectedWeekdays := []
    selectedMonthDays := []
    repeatEveryXWeeksOrDays := 1
    manuallyChosenDates := [⟨2099, 1, 1⟩, ⟨2099, 1, 2⟩] }

/-- Witness for C6: the expansion of `c6TwoDatePayload` at
`now = 1103442271` succeeds with only the second occurrence (the 29-minute
-away occurrence is silently dropped), and the kept-iff equivalence applied
to the dropped occurrence shows its buffer test `1103442271 + 30 ≤
1103442300` is what excludes it. -/
theorem future_buffer_keeps_iff_witness :
    (⟨0, 1103442300, 1103442360⟩ : Session) ∈
        [(⟨0, 1103443740, 1103443800⟩ : Session)] ↔
      (∃ d ∈ includedDays c6TwoDatePayload 1,
          ∃ slot ∈ c6TwoDatePayload.dailyTimeSlots,
            createValidClassSessionFromDateAndTimes d slot =
              .ok ⟨0, 1103442300, 1103442360⟩)
        ∧ 1103442271 + 30 ≤ 1103442300 :=
  future_buffer_keeps_iff c6TwoDatePayload 1103442271 1
    [⟨0, 1103443740, 1103443800⟩] ⟨0, 1103442300, 1103442360⟩ (by rfl)

/-! ## C7: boundary validation by kind -/

/-- DAILY payload with no `seriesEndDate`. -/
def c7NoEndPayload : GenPayload :=
  { seriesStartDate := some ⟨2099, 1, 1⟩
    seriesEndDate := none
    recurrenceType := .daily
    dailyTimeSlots := [⟨9, 0, 10, 0⟩]
    selectedWeekdays := []
    selectedMonthDays := []
    repeatEveryXWeeksOrDays := 1
    manuallyChosenDates := [] }

/-- DAILY payload whose `seriesEndDate` precedes its `seriesStartDate`. -/
def c7BadRangePayload : GenPayload :=
  { seriesStartDate := some ⟨2099, 1, 2⟩
    seriesEndDate := some ⟨2099, 1, 1⟩
    recurrenceType := .daily
    dailyTimeSlots := [⟨9, 0, 10, 0⟩]
    selectedWeekdays := []
    selectedMonthDays := []
    repeatEveryXWeeksOrDays := 1
    manuallyChosenDates := [] }

/-- C7 counterexample: for a DAILY rule the expander raises neither
failure — with `seriesEndDate` absent it succeeds (walking the single start
day), and with `seriesEndDate` before `seriesStartDate` it fails with
`noFutureSessions` (empty walk), not with an invalid-range failure. -/
theorem daily_boundary_not_validated_by_expander :
    c7NoEndPayload.recurrenceType = .daily
    ∧ c7NoEndPayload.seriesEndDate = none
    ∧ generateAllClassSessions c7NoEndPayload 0 3 =
        .ok [⟨0, 1103442300, 1103442360⟩]
    ∧ dateLE ⟨2099, 1, 2⟩ ⟨2099, 1, 1⟩ = false
    ∧ generateAllClassSessions c7BadRangePayload 0 3 =
        .error .noFutureSessions := by
  exact ⟨rfl, rfl, by rfl, by decide, by rfl⟩

/-- C7 (amended): only CUSTOM pattern mode (no manual dates) validates the
series boundary inside the expander — a missing boundary date yields
`missingBoundary` and an end before the start yields `invalidRange`; for
the other recurring kinds the expander treats a missing `seriesEndDate` as
a boundary equal to `seriesStartDate` (a one-day walk), deferring any
missing-end rejection to the create controller's own pre-check. -/
theorem boundary_validation_by_kind :
    (∀ (p : GenPayload) (now fuel : Nat),
        p.dailyTimeSlots ≠ [] → p.recurrenceType = .custom →
        p.manuallyChosenDates = [] →
        (p.seriesStartDate = none ∨ p.seriesEndDate = none) →
        generateAllClassSessions p now fuel = .error .missingBoundary)
    ∧ (∀ (p : GenPayload) (now fuel : Nat) (st en : CivilDate),
        p.dailyTimeSlots ≠ [] → p.recurrenceType = .custom →
        p.manuallyChosenDates = [] → p.seriesStartDate = some st →
        p.seriesEndDate = some en → dateLE st en = false →
        generateAllClassSessions p now fuel = .error .invalidRange)
    ∧ (∀ (p : GenPayload) (now fuel : Nat) (st : CivilDate),
        p.recurrenceType ≠ .custom → p.seriesStartDate = some st →
        p.seriesEndDate = none →
        generateAllClassSessions p now fuel =
          generateAllClassSessions { p with seriesEndDate := some st }
            now fuel) := by
  refine ⟨?_, ?_, ?_⟩
  · intro p now fuel hs hc hm hmiss
    unfold generateAllClassSessions earlyValidate
    rw [hc]
    rw [if_neg (by simpa using hs)]
    rw [hm]
    rcases hmiss with hm1 | hm2
    · rw [hm1]
      simp
    · rw [hm2]
      rcases hst : p.seriesStartDate with _ | st <;> simp
  · intro p now fuel st en hs hc hm hst hen hrange
    unfold generateAllClassSessions earlyValidate
    rw [hc]
    rw [if_neg (by simpa using hs)]
    rw [hm, hst, hen]
    simp [hrange]
  · intro p now fuel st hnc hst hen
    rcases p with ⟨sd, ed, rt, slots, wd, md, iv, man⟩
    simp only at hst hen hnc
    subst hst
    subst hen
    cases rt <;> first | rfl | exact absurd rfl hnc

/-- CUSTOM pattern-mode payload (no manual dates) lacking an end date. -/
def c7CustomMissingPayload : GenPayload :=
  { seriesStartDate := some ⟨2099, 1, 1⟩
    seriesEndDate := none
    recurrenceType := .custom
    dailyTimeSlots := [⟨9, 0, 10, 0⟩]
    selectedWeekdays := []
    selectedMonthDays := []
    repeatEveryXWeeksOrDays := 1
    manuallyChosenDates := [] }

/-- CUSTOM pattern-mode payload whose end date precedes its start date. -/
def c7CustomBadRangePayload : GenPayload :=
  { seriesStartDate := some ⟨2099, 1, 2⟩
    seriesEndDate := some ⟨2099, 1, 1⟩
    recurrenceType := .custom
    dailyTimeSlots := [⟨9, 0, 10, 0⟩]
    selectedWeekdays := []
    selectedMonthDays := []
    repeatEveryXWeeksOrDays := 1
    manuallyChosenDates := [] }

/-- Witness for C7 (amended) at concrete payloads: custom pattern mode
raises `missingBoundary` and `invalidRange`, and the no-end DAILY payload
expands exactly like the same payload with the boundary set to its start
day. -/
theorem boundary_validation_by_kind_witness :
    generateAllClassSessions c7CustomMissingPayload 0 3 =
        .error .missingBoundary
    ∧ generateAllClassSessions c7CustomBadRangePayload 0 3 =
        .error .invalidRange
    ∧ generateAllClassSessions c7NoEndPayload 0 3 =
        generateAllClassSessions
          { c7NoEndPayload with seriesEndDate := some ⟨2099, 1, 1⟩ } 0 3 :=
  ⟨boundary_validation_by_kind.1 c7CustomMissingPayload 0 3 (by decide) rfl
      rfl (Or.inr rfl),
    boundary_validation_by_kind.2.1 c7CustomBadRangePayload 0 3
      ⟨2099, 1, 2⟩ ⟨2099, 1, 1⟩ (by decide) rfl rfl rfl rfl (by decide),
    boundary_validation_by_kind.2.2 c7NoEndPayload 0 3 ⟨2099, 1, 1⟩
      (by decide) rfl rfl⟩

/-! ## C9: conflict attribution and dual reporting -/

/-- Series occupying the target room (10) with a different instructor (20).
-/
def c9RoomDoc : SeriesDoc :=
  ⟨1, "Doc A", 20, 10, "Alice", "Room A", .weekly, [⟨1, 100, 200⟩], []⟩

/-- Series taught by the target instructor (21) in a different room (11).
-/
def c9InstructorDoc : SeriesDoc :=
  ⟨2, "Doc B", 21, 11, "Bob", "Room B", .weekly, [⟨2, 100, 200⟩], []⟩

/-- Store holding both conflicting series, room conflict first. -/
def c9Store : List SeriesDoc := [c9RoomDoc, c9InstructorDoc]

/-- Candidate interval overlapping both stored sessions. -/
def c9Candidate : Session := ⟨0, 150, 250⟩

/-- C9 counterexample: against a store holding a room-conflicting series
and an instructor-conflicting series (different series, both overlapping
the candidate), the joint-query conflict finder reports only the first
matching series — a room conflict naming `Doc A` alone — instead of
reporting both. -/
theorem joint_finder_reports_only_first_conflict :
    baseQueryMatches [c9Candidate] none (fun d => d.assignedInstructor) 21
        c9InstructorDoc = true
    ∧ baseQueryMatches [c9Candidate] none (fun d => d.assignedRoom) 10
        c9RoomDoc = true
    ∧ c9RoomDoc.assignedInstructor ≠ 21
    ∧ c9InstructorDoc.docId ≠ c9RoomDoc.docId
    ∧ findDetailedSchedulingConflict c9Store [c9Candidate] 10 21 none =
        some ⟨"assignedRoom",
          "Room Room A is already reserved for \"Doc A\" on 0 at 100 to 200."⟩
    := by
  exact ⟨by decide, by decide, by decide, by decide, by rfl⟩

/-- C9 (amended): attribution holds in both finder variants — the reported
field is the instructor exactly when the winning series' instructor equals
the target instructor id — but only the dual-query variant reports both a
room and an instructor conflict at once (with a combined message naming
both entities); the joint-query variant reports a single series.  When the
dual-query variant reports a room conflict, the winning series' instructor
provably differs from the target. -/
theorem conflict_attribution_and_dual_reporting :
    (∀ (store : List SeriesDoc) (requested : List Session)
        (roomId instrId : Nat) (ign : Option Nat) (doc : SeriesDoc),
        store.find? (docMatchesConflictQuery requested roomId instrId ign) =
            some doc →
        ∃ c, findDetailedSchedulingConflict store requested roomId instrId
              ign = some c
          ∧ c.field =
              if doc.assignedInstructor == instrId then "assignedInstructor"
              else "assignedRoom")
    ∧ (∀ (store : List SeriesDoc) (requested : List Session)
        (roomId instrId : Nat) (ign : Option Nat) (di dr : SeriesDoc),
        store.find?
            (baseQueryMatches requested ign (fun d => d.assignedInstructor)
              instrId) = some di →
        store.find?
            (baseQueryMatches requested ign (fun d => d.assignedRoom)
              roomId) = some dr →
        findDetailedSchedulingConflictDual store requested roomId instrId
            ign =
          some ⟨"assignedInstructor",
            dualConflictMessage di requested
              ("Instructor \"" ++ di.instructorName ++ "\" AND Room \""
                ++ dr.roomName ++ "\" are both")⟩)
    ∧ (∀ (store : List SeriesDoc) (requested : List Session)
        (roomId instrId : Nat) (ign : Option Nat) (dr : SeriesDoc),
        store.find?
            (baseQueryMatches requested ign (fun d => d.assignedInstructor)
              instrId) = none →
        store.find?
            (baseQueryMatches requested ign (fun d => d.assignedRoom)
              roomId) = some dr →
        findDetailedSchedulingConflictDual store requested roomId instrId
            ign =
            some ⟨"assignedRoom",
              dualConflictMessage dr requested
                ("Room \"" ++ dr.roomName ++ "\" is")⟩
          ∧ dr.assignedInstructor ≠ instrId) := by
  refine ⟨?_, ?_, ?_⟩
  · intro store requested roomId instrId ign doc h
    unfold findDetailedSchedulingConflict
    rw [h]
    exact ⟨_, rfl, rfl⟩
  · intro store requested roomId instrId ign di dr h1 h2
    unfold findDetailedSchedulingConflictDual
    rw [h1, h2]
  · intro store requested roomId instrId ign dr h1 h2
    constructor
    · unfold findDetailedSchedulingConflictDual
      rw [h1, h2]
    · intro heq
      have hmem : dr ∈ store := List.mem_of_find?_eq_some h2
      have hpred :
          baseQueryMatches requested ign (fun d => d.assignedRoom) roomId
            dr = true := List.find?_some h2
      have hnone :=
        List.find?_eq_none.mp h1 dr hmem
      apply hnone
      unfold baseQueryMatches at hpred ⊢
      simp only [Bool.and_eq_true] at hpred ⊢
      exact ⟨⟨by simp [heq], hpred.1.2⟩, hpred.2⟩

/-- Witness for C9 (amended) on the concrete two-series store: attribution
of the joint variant's winning document (`c9RoomDoc`, a room conflict), the
dual variant's combined both-entities report, and the dual variant's
room-only report against a store holding only the room conflict. -/
theorem conflict_attribution_and_dual_reporting_witness :
    (∃ c, findDetailedSchedulingConflict c9Store [c9Candidate] 10 21 none =
          some c
        ∧ c.field =
            if c9RoomDoc.assignedInstructor == 21 then "assignedInstructor"
            else "assignedRoom")
    ∧ findDetailedSchedulingConflictDual c9Store [c9Candidate] 10 21 none =
        some ⟨"assignedInstructor",
          dualConflictMessage c9InstructorDoc [c9Candidate]
            ("Instructor \"" ++ c9InstructorDoc.instructorName
              ++ "\" AND Room \"" ++ c9RoomDoc.roomName ++ "\" are both")⟩
    ∧ (findDetailedSchedulingConflictDual [c9RoomDoc] [c9Candidate] 10 21
          none =
          some ⟨"assignedRoom",
            dualConflictMessage c9RoomDoc [c9Candidate]
              ("Room \"" ++ c9RoomDoc.roomName ++ "\" is")⟩
        ∧ c9RoomDoc.assignedInstructor ≠ 21) :=
  ⟨conflict_attribution_and_dual_reporting.1 c9Store [c9Candidate] 10 21
      none c9RoomDoc (by rfl),
    conflict_attribution_and_dual_reporting.2.1 c9Store [c9Candidate] 10 21
      none c9InstructorDoc c9RoomDoc (by rfl) (by rfl),
    conflict_attribution_and_dual_reporting.2.2 [c9RoomDoc] [c9Candidate]
      10 21 none c9RoomDoc (by rfl) (by rfl)⟩

/-! ## C8: detachment postconditions -/

/-- C8: after a successful detach of a session from a non-SINGLE parent
series, a new SINGLE series exists holding exactly the one (possibly
time-shifted) session with instructor/room/title inherited unless
overridden; the parent gains one CANCELLED exception anchored at the
original (pre-override) session start; and every session with the detached
id is removed from the parent's session array. -/
theorem detach_postconditions
    (store : List SeriesDoc) (series : SeriesDoc) (sessionId : Nat)
    (body : UpdateBody) (sess : Session)
    (hKind : series.recurrenceType ≠ .single)
    (hFind : series.preGeneratedClassSessions.find?
        (fun s => s.sessionId == sessionId) = some sess)
    (hNoConf : findDetailedSchedulingConflictDual store
        [⟨0, body.newStart.getD sess.sessionStartDateTime,
            body.newEnd.getD sess.sessionEndDateTime⟩]
        (body.assignedRoom.getD series.assignedRoom)
        (body.assignedInstructor.getD series.assignedInstructor)
        (some series.docId) = none) :
    ∃ n parent,
      updateSingleInstance store series sessionId body =
          .ok (.detached n parent)
        ∧ n.recurrenceType = .single
        ∧ n.preGeneratedClassSessions =
            [⟨0, body.newStart.getD sess.sessionStartDateTime,
                body.newEnd.getD sess.sessionEndDateTime⟩]
        ∧ n.assignedInstructor =
            body.assignedInstructor.getD series.assignedInstructor
        ∧ n.assignedRoom = body.assignedRoom.getD series.assignedRoom
        ∧ n.classTitle = body.classTitle.getD series.classTitle
        ∧ parent.exceptions =
            series.exceptions
              ++ [⟨sess.sessionStartDateTime, .cancelled, body.reason,
                    none, none⟩]
        ∧ parent.preGeneratedClassSessions =
            series.preGeneratedClassSessions.filter
              (fun s => !(s.sessionId == sessionId))
        ∧ ∀ s ∈ parent.preGeneratedClassSessions, s.sessionId ≠ sessionId
    := by
  unfold updateSingleInstance
  have hb : (series.recurrenceType == RecurrenceType.single) = false := by
    cases hr : series.recurrenceType <;> first | rfl | exact absurd hr hKind
  rw [if_neg (by rw [hb]; simp)]
  rw [hFind]
  dsimp only
  rw [hNoConf]
  refine ⟨_, _, rfl, rfl, rfl, rfl, rfl, rfl, rfl, rfl, ?_⟩
  intro s hs
  have := List.of_mem_filter hs
  simpa using this

/-- Concrete WEEKLY parent for the C8 witness. -/
def c8ParentSeries : SeriesDoc :=
  ⟨5, "Yoga", 7, 8, "Ann", "Hall 1", .weekly,
    [⟨1, 100, 160⟩, ⟨2, 1540, 1600⟩], []⟩

/-- Concrete detach request for the C8 witness: move the second session and
change its room. -/
def c8DetachBody : UpdateBody :=
  ⟨some 3000, some 3060, none, none, some 9, "moved to new room"⟩

/-- Witness for C8 on the concrete parent: detaching session 2 against an
empty store succeeds with all the stated postconditions. -/
theorem detach_postconditions_witness :
    ∃ n parent,
      updateSingleInstance [] c8ParentSeries 2 c8DetachBody =
          .ok (.detached n parent)
        ∧ n.recurrenceType = .single
        ∧ n.preGeneratedClassSessions = [⟨0, 3000, 3060⟩]
        ∧ n.assignedInstructor = 7
        ∧ n.assignedRoom = 9
        ∧ n.classTitle = "Yoga"
        ∧ parent.exceptions =
            [⟨1540, .cancelled, "moved to new room", none, none⟩]
        ∧ parent.preGeneratedClassSessions = [⟨1, 100, 160⟩]
        ∧ ∀ s ∈ parent.preGeneratedClassSessions, s.sessionId ≠ 2 := by
  have h :=
    detach_postconditions [] c8ParentSeries 2 c8DetachBody ⟨2, 1540, 1600⟩
      (by decide) (by rfl) (by rfl)
  simpa [c8ParentSeries, c8DetachBody] using h

/-! ## C10: SINGLE-kind in-place update skips the conflict check -/

/-- C10: when the target series already has kind SINGLE, the in-place
mutation path can never return a scheduling conflict (the result does not
depend on the store at all), and when the series holds at least one stored
session the result is the success that rewrites title/instructor/room and
the first session's start/end from the request body. -/
theorem single_kind_update_never_conflicts
    (store store2 : List SeriesDoc) (series : SeriesDoc) (sessionId : Nat)
    (body : UpdateBody) (hKind : series.recurrenceType = .single) :
    (∀ c, updateSingleInstance store series sessionId body ≠
        .error (.conflict c))
    ∧ updateSingleInstance store series sessionId body =
        updateSingleInstance store2 series sessionId body
    ∧ (∀ h t, series.preGeneratedClassSessions = h :: t →
        updateSingleInstance store series sessionId body =
          .ok (.standalone
            { series with
                classTitle := body.classTitle.getD series.classTitle
                assignedInstructor :=
                  body.assignedInstructor.getD series.assignedInstructor
                assignedRoom := body.assignedRoom.getD series.assignedRoom
                preGeneratedClassSessions :=
                  { h with
                      sessionStartDateTime :=
                        body.newStart.getD h.sessionStartDateTime
                      sessionEndDateTime :=
                        body.newEnd.getD h.sessionEndDateTime } :: t })) := by
  refine ⟨?_, ?_, ?_⟩
  · intro c
    unfold updateSingleInstance
    rw [if_pos (by rw [hKind]; rfl)]
    rcases series.preGeneratedClassSessions with _ | ⟨h, t⟩
    · dsimp only
      split <;> simp
    · simp
  · unfold updateSingleInstance
    rw [if_pos (by rw [hKind]; rfl), if_pos (by rw [hKind]; rfl)]
  · intro h t hEq
    unfold updateSingleInstance
    rw [if_pos (by rw [hKind]; rfl)]
    rw [show ({ series with
        classTitle := body.classTitle.getD series.classTitle
        assignedInstructor :=
          body.assignedInstructor.getD series.assignedInstructor
        assignedRoom := body.assignedRoom.getD series.assignedRoom
          : SeriesDoc }).preGeneratedClassSessions =
      series.preGeneratedClassSessions from rfl, hEq]

/-- A booked series overlapping the witness's requested new time, same room
and instructor — present in the store yet ignored by the SINGLE-kind path.
-/
def c10OtherBookedDoc : SeriesDoc :=
  ⟨4, "Busy", 7, 8, "Ann", "Hall 1", .weekly, [⟨9, 180, 240⟩], []⟩

/-- Concrete SINGLE-kind series for the C10 witness. -/
def c10SingleSeries : SeriesDoc :=
  ⟨3, "Solo", 7, 8, "Ann", "Hall 1", .single, [⟨1, 100, 160⟩], []⟩

/-- Concrete body moving the standalone session onto 200-260, overlapping
`c10OtherBookedDoc`'s 180-240 booking for the same room and instructor. -/
def c10MoveBody : UpdateBody :=
  ⟨some 200, some 260, some "Solo II", none, none, "reschedule"⟩

/-- Witness for C10: updating the SINGLE-kind series against a store whose
only document holds an overlapping booking for the same room and instructor
yields no conflict, is store-independent (same result as against the empty
store), and rewrites the stored session in place. -/
theorem single_kind_update_never_conflicts_witness :
    (∀ c, updateSingleInstance [c10OtherBookedDoc] c10SingleSeries 1
        c10MoveBody ≠ .error (.conflict c))
    ∧ updateSingleInstance [c10OtherBookedDoc] c10SingleSeries 1
          c10MoveBody =
        updateSingleInstance [] c10SingleSeries 1 c10MoveBody
    ∧ (∀ h t, c10SingleSeries.preGeneratedClassSessions = h :: t →
        updateSingleInstance [c10OtherBookedDoc] c10SingleSeries 1
            c10MoveBody =
          .ok (.standalone
            { c10SingleSeries with
                classTitle := c10MoveBody.classTitle.getD
                  c10SingleSeries.classTitle
                assignedInstructor :=
                  c10MoveBody.assignedInstructor.getD
                    c10SingleSeries.assignedInstructor
                assignedRoom := c10MoveBody.assignedRoom.getD
                  c10SingleSeries.assignedRoom
                preGeneratedClassSessions :=
                  { h with
                      sessionStartDateTime :=
                        c10MoveBody.newStart.getD h.sessionStartDateTime
                      sessionEndDateTime :=
                        c10MoveBody.newEnd.getD h.sessionEndDateTime } :: t
            })) :=
  single_kind_update_never_conflicts [c10OtherBookedDoc] [] c10SingleSeries
    1 c10MoveBody rfl
